import Mathlib

/-!
Shallow embedding of the merge/aggregation engine in src/src/aggregator.rs
(prometheus-gravel-gateway). Metric numbers (f64 in the source) are modelled
as rationals; the histogram count (u64 in the source) as Nat. Rust panics
(todo, unreachable, and out-of-bounds indexing) are modelled as explicit
outcome constructors of the result type RResult, alongside the Result errors
the source returns.
-/

set_option maxRecDepth 4000

/-- Outcome of a Rust computation: a normal Ok value, a returned Err, or one
of the panic forms the source can hit. -/
inductive RResult (α : Type) where
  | ok : α → RResult α
  | err : String → RResult α
  | todoCrash : RResult α
  | unreachableCrash : RResult α
  | indexCrash : RResult α
deriving Repr, DecidableEq

/-- The reserved label key: CLEARMODE_LABEL_NAME in the source. -/
def CLEARMODE_LABEL_NAME : String := "clearmode"

/-- PrometheusType from openmetrics_parser, as matched by the source. -/
inductive PrometheusType where
  | Counter
  | Gauge
  | Histogram
  | Summary
  | Unknown
deriving Repr, DecidableEq, BEq

/-- ClearMode from the source. -/
inductive ClearMode where
  | Aggregate
  | Replace
  | Family
deriving Repr, DecidableEq, BEq

/-- An exemplar attached to a counter or a histogram bucket. Only its
identity matters to the merge engine, which moves it around whole. -/
structure Exemplar where
  labels : List (String × String)
  value : Rat
deriving Repr, DecidableEq

/-- HistogramBucket from openmetrics_parser: count, upper bound, exemplar. -/
structure HistogramBucket where
  count : Rat
  upper_bound : Rat
  exemplar : Option Exemplar
deriving Repr, DecidableEq

/-- The type-tagged value of a sample (PrometheusValue in the source).
The Summary payload is irrelevant to the engine (its merge is a todo panic). -/
inductive PrometheusValue where
  | Unknown : Rat → PrometheusValue
  | Gauge : Rat → PrometheusValue
  | Counter : Rat → Option Exemplar → PrometheusValue
  | Histogram : Option Rat → Option Nat → Option Rat → List HistogramBucket → PrometheusValue
  | Summary : PrometheusValue
deriving Repr, DecidableEq

/-- A sample: a label set plus a type-tagged value. -/
structure Sample where
  labels : List (String × String)
  value : PrometheusValue
deriving Repr, DecidableEq

/-- Lookup of a label value by key (get_label_value on a label set). -/
def get_label_value : List (String × String) → String → Option String
  | [], _ => none
  | (k, v) :: rest, key => if k = key then some v else get_label_value rest key

/-- Removal of every pair carrying the given key (without_label on a label
set): the external collaborator strips the label from the set. -/
def withoutLabelPairs (ls : List (String × String)) (key : String) : List (String × String) :=
  ls.filter (fun kv => kv.1 != key)

/-- without_label lifted to a sample. -/
def Sample.without_label (s : Sample) (key : String) : Sample :=
  { s with labels := withoutLabelPairs s.labels key }

/-- Label-set equality: same key to value mapping, order irrelevant. -/
def labelsetEq (a b : List (String × String)) : Bool :=
  a.all (fun kv => get_label_value b kv.1 == some kv.2) &&
  b.all (fun kv => get_label_value a kv.1 == some kv.2)

/-- A metric family: name, type tag, and the contained samples. -/
structure PrometheusMetricFamily where
  family_name : String
  family_type : PrometheusType
  samples : List Sample
deriving Repr, DecidableEq

/-- without_label lifted to a family: strips the label from every sample. -/
def PrometheusMetricFamily.without_label (f : PrometheusMetricFamily) (key : String) :
    PrometheusMetricFamily :=
  { f with samples := f.samples.map (fun s => s.without_label key) }

/-- ClearMode::default_for_type from the source. -/
def ClearMode.default_for_type (t : PrometheusType) : ClearMode :=
  match t with
  | PrometheusType.Counter | PrometheusType.Unknown
  | PrometheusType.Histogram | PrometheusType.Summary => ClearMode.Aggregate
  | PrometheusType.Gauge => ClearMode.Replace

/-- ClearMode::from_str from the source: the three recognised strings map to
their mode, anything else is an Err. -/
def ClearMode.from_str (s : String) : Except String ClearMode :=
  if s = "aggregate" then Except.ok ClearMode.Aggregate
  else if s = "replace" then Except.ok ClearMode.Replace
  else if s = "family" then Except.ok ClearMode.Family
  else Except.error ("Invalid clearmode: " ++ s)

/-- ClearMode::from_family from the source: read the clearmode label off the
sample, parse it, and fall back to the type default when it is absent or
unrecognised (unwrap_or). -/
def ClearMode.from_family (family_type : PrometheusType) (metric : Sample) : ClearMode :=
  match get_label_value metric.labels CLEARMODE_LABEL_NAME with
  | some c =>
    match ClearMode.from_str c with
    | Except.ok m => m
    | Except.error _ => ClearMode.default_for_type family_type
  | none => ClearMode.default_for_type family_type

/-- The while loop of merge_buckets: two-pointer walk over both lists while
both have remaining items. Returns the output so far and the final indices.
The fuel argument only bounds the iteration count so the recursion is
structural; every iteration of the loop advances i or j, so the wrapper
passes enough fuel for the guard to stop the loop first. -/
def mergeBucketsWhileAux (val1 val2 : List HistogramBucket) :
    Nat → Nat → Nat → List HistogramBucket → List HistogramBucket × Nat × Nat
  | i, j, 0, output => (output, i, j)
  | i, j, fuel + 1, output =>
    if h : i < val1.length ∧ j < val2.length then
      let bucket1 := val1.get ⟨i, h.1⟩
      let bucket2 := val2.get ⟨j, h.2⟩
      if bucket1.upper_bound < bucket2.upper_bound then
        mergeBucketsWhileAux val1 val2 (i + 1) j fuel (output ++ [bucket1])
      else if bucket1.upper_bound > bucket2.upper_bound then
        mergeBucketsWhileAux val1 val2 i (j + 1) fuel (output ++ [bucket2])
      else
        mergeBucketsWhileAux val1 val2 (i + 1) (j + 1) fuel
          (output ++ [{ count := bucket1.count + bucket2.count,
                        upper_bound := bucket1.upper_bound,
                        exemplar := bucket2.exemplar }])
    else
      (output, i, j)

/-- The while loop of merge_buckets starting at indices 0, 0. -/
def mergeBucketsWhile (val1 val2 : List HistogramBucket) :
    List HistogramBucket × Nat × Nat :=
  mergeBucketsWhileAux val1 val2 0 0 (val1.length + val2.length) []

/-- A Rust loop `for k in lo..hi` pushing src[k], running for its hi - lo
iterations: indexing out of range is a panic, modelled as none. -/
def pushIndexedAux (src : List HistogramBucket) :
    Nat → Nat → List HistogramBucket → Option (List HistogramBucket)
  | _, 0, output => some output
  | k, n + 1, output =>
    match src.get? k with
    | some b => pushIndexedAux src (k + 1) n (output ++ [b])
    | none => none

/-- A Rust loop `for k in lo..hi` pushing src[k]. -/
def pushIndexed (src : List HistogramBucket) (lo hi : Nat)
    (output : List HistogramBucket) : Option (List HistogramBucket) :=
  pushIndexedAux src lo (hi - lo) output

/-- merge_buckets from the source, transliterated: the two-pointer loop,
then the two tail-copy loops. The second tail loop indexes val1 with the
val2 index, exactly as the source does. -/
def merge_buckets (val1 val2 : List HistogramBucket) : RResult (List HistogramBucket) :=
  match mergeBucketsWhile val1 val2 with
  | (output, i, j) =>
    match pushIndexed val1 i val1.length output with
    | none => RResult.indexCrash
    | some output2 =>
      match pushIndexed val1 j val2.length output2 with
      | none => RResult.indexCrash
      | some output3 => RResult.ok output3

/-- merge_metric from the source: dispatch on the pair of value tags, combine
under the given clear mode, and store the result in the first sample (the
source mutates into.value; here the updated sample is returned). The todo
arm (Summary) and the unreachable arms (Family mode inside a scalar merge,
and mismatched tags) are panics. -/
def merge_metric (into merge : Sample) (clear_mode : ClearMode) : RResult Sample :=
  match into.value, merge.value with
  | PrometheusValue.Unknown val1, PrometheusValue.Unknown val2 =>
    match clear_mode with
    | ClearMode.Aggregate => RResult.ok { into with value := PrometheusValue.Unknown (val1 + val2) }
    | ClearMode.Replace => RResult.ok { into with value := PrometheusValue.Unknown val2 }
    | _ => RResult.unreachableCrash
  | PrometheusValue.Gauge val1, PrometheusValue.Gauge val2 =>
    match clear_mode with
    | ClearMode.Aggregate => RResult.ok { into with value := PrometheusValue.Gauge (val1 + val2) }
    | ClearMode.Replace => RResult.ok { into with value := PrometheusValue.Gauge val2 }
    | _ => RResult.unreachableCrash
  | PrometheusValue.Counter v1 _e1, PrometheusValue.Counter v2 e2 =>
    match clear_mode with
    | ClearMode.Aggregate => RResult.ok { into with value := PrometheusValue.Counter (v1 + v2) e2 }
    | ClearMode.Replace => RResult.ok { into with value := PrometheusValue.Counter v2 e2 }
    | _ => RResult.unreachableCrash
  | PrometheusValue.Histogram s1 c1 _cr1 b1, PrometheusValue.Histogram s2 c2 cr2 b2 =>
    let sum : Option Rat :=
      match s1, s2, clear_mode with
      | some a, some b, ClearMode.Aggregate => some (a + b)
      | some _, some b, ClearMode.Replace => some b
      | _, _, _ => none
    let count : Option Nat :=
      match c1, c2, clear_mode with
      | some a, some b, ClearMode.Aggregate => some (a + b)
      | some _, some b, ClearMode.Replace => some b
      | _, _, _ => none
    match clear_mode with
    | ClearMode.Aggregate =>
      match merge_buckets b1 b2 with
      | RResult.ok buckets =>
        RResult.ok { into with value := PrometheusValue.Histogram sum count cr2 buckets }
      | RResult.err e => RResult.err e
      | RResult.todoCrash => RResult.todoCrash
      | RResult.unreachableCrash => RResult.unreachableCrash
      | RResult.indexCrash => RResult.indexCrash
    | ClearMode.Replace =>
      RResult.ok { into with value := PrometheusValue.Histogram sum count cr2 b2 }
    | ClearMode.Family => RResult.unreachableCrash
  | PrometheusValue.Summary, PrometheusValue.Summary => RResult.todoCrash
  | _, _ => RResult.unreachableCrash

/-- An aggregation family wraps one metric family holding the merged state. -/
structure AggregationFamily where
  base_family : PrometheusMetricFamily
deriving Repr, DecidableEq

/-- AggregationFamily::new from the source: strip the clearmode label from
the base family at construction time. -/
def AggregationFamily.new (base_family : PrometheusMetricFamily) : AggregationFamily :=
  { base_family := base_family.without_label CLEARMODE_LABEL_NAME }

/-- get_sample_matches on the stored samples: the first stored sample whose
label set equals that of the comparison sample. -/
def getSampleMatches (base : List Sample) (cmp : Sample) : Option Sample :=
  base.find? (fun s => labelsetEq s.labels cmp.labels)

/-- In-place mutation of the first stored sample matching the comparison
label set, as done through the mutable reference in the source. -/
def setFirstMatch (base : List Sample) (cmp : Sample) (s2 : Sample) : List Sample :=
  match base with
  | [] => []
  | s :: rest =>
    if labelsetEq s.labels cmp.labels then s2 :: rest
    else s :: setFirstMatch rest cmp s2

/-- The family-wide clear check of AggregationFamily::merge: true when any
incoming sample resolves to Family clear mode for the incoming family type. -/
def shouldClearFamily (new_family : PrometheusMetricFamily) : Bool :=
  new_family.samples.any (fun metric =>
    ClearMode.from_family new_family.family_type metric == ClearMode.Family)

/-- The per-sample loop of AggregationFamily::merge: for each incoming
sample, compare without the clearmode label; add the (unstripped) sample when
no stored sample matches, otherwise resolve the clear mode and merge into the
matched stored sample in place. -/
def mergeSamplesLoop (family_type : PrometheusType) (base : List Sample) :
    List Sample → RResult (List Sample)
  | [] => RResult.ok base
  | metric :: rest =>
    let cmp_metric := metric.without_label CLEARMODE_LABEL_NAME
    match getSampleMatches base cmp_metric with
    | none => mergeSamplesLoop family_type (base ++ [metric]) rest
    | some s =>
      let clear_mode := ClearMode.from_family family_type metric
      match merge_metric s metric clear_mode with
      | RResult.ok s2 => mergeSamplesLoop family_type (setFirstMatch base cmp_metric s2) rest
      | RResult.err e => RResult.err e
      | RResult.todoCrash => RResult.todoCrash
      | RResult.unreachableCrash => RResult.unreachableCrash
      | RResult.indexCrash => RResult.indexCrash

/-- AggregationFamily::merge from the source: validate name and type, check
for a family-wide clear, else run the per-sample merge loop over the stored
samples. -/
def AggregationFamily.merge (self : AggregationFamily) (new_family : PrometheusMetricFamily) :
    RResult AggregationFamily :=
  if new_family.family_name ≠ self.base_family.family_name then
    RResult.err ("Invalid metric names - tried to merge " ++ new_family.family_name ++
      " with " ++ self.base_family.family_name)
  else if new_family.family_type ≠ self.base_family.family_type then
    RResult.err "Invalid metric types"
  else if shouldClearFamily new_family then
    RResult.ok { base_family := new_family.without_label CLEARMODE_LABEL_NAME }
  else
    let family_type := self.base_family.family_type
    match mergeSamplesLoop family_type self.base_family.samples new_family.samples with
    | RResult.ok samples =>
      RResult.ok { base_family := { self.base_family with samples := samples } }
    | RResult.err e => RResult.err e
    | RResult.todoCrash => RResult.todoCrash
    | RResult.unreachableCrash => RResult.unreachableCrash
    | RResult.indexCrash => RResult.indexCrash

/-- Association lookup in the name-to-family map of the Aggregator. -/
def lookupFamily : List (String × AggregationFamily) → String → Option AggregationFamily
  | [], _ => none
  | (k, v) :: rest, name => if k = name then some v else lookupFamily rest name

/-- Replacement of the entry at the given key in the Aggregator map. -/
def setFamily : List (String × AggregationFamily) → String → AggregationFamily →
    List (String × AggregationFamily)
  | [], _, _ => []
  | (k, v) :: rest, name, f => if k = name then (k, f) :: rest else (k, v) :: setFamily rest name f

/-- The merge loop of Aggregator::parse_and_merge over the already-decoded
families of one batch (decoding the exposition text is the external codec and
is outside this model). Each named family is merged into the stored family of
that name, or inserted fresh. On a merge error the loop stops, returning the
error together with the map as mutated so far, exactly as the early return in
the source leaves the locked map. -/
def parse_and_merge_families :
    List (String × PrometheusMetricFamily) → List (String × AggregationFamily) →
    RResult Unit × List (String × AggregationFamily)
  | [], state => (RResult.ok (), state)
  | (name, metrics) :: rest, state =>
    match lookupFamily state name with
    | some f =>
      match AggregationFamily.merge f metrics with
      | RResult.ok f2 => parse_and_merge_families rest (setFamily state name f2)
      | RResult.err e => (RResult.err e, state)
      | RResult.todoCrash => (RResult.todoCrash, state)
      | RResult.unreachableCrash => (RResult.unreachableCrash, state)
      | RResult.indexCrash => (RResult.indexCrash, state)
    | none => parse_and_merge_families rest (state ++ [(name, AggregationFamily.new metrics)])

/-! ## Helper lemmas -/

/-- Stripping a key from a label set makes lookup of that key fail. -/
theorem get_label_value_strip (ls : List (String × String)) (key : String) :
    get_label_value (withoutLabelPairs ls key) key = none := by
  induction ls with
  | nil => rfl
  | cons kv rest ih =>
    by_cases h : kv.1 = key
    · simpa [withoutLabelPairs, List.filter_cons, h] using ih
    · simpa [withoutLabelPairs, List.filter_cons, h, get_label_value] using ih

/-- Association lookup ignores a right extension when the key is found. -/
theorem lookupFamily_append_left (xs ys : List (String × AggregationFamily)) (name : String)
    (g : AggregationFamily) (h : lookupFamily xs name = some g) :
    lookupFamily (xs ++ ys) name = some g := by
  induction xs with
  | nil => simp [lookupFamily] at h
  | cons kv rest ih =>
    by_cases hk : kv.1 = name
    · simp [lookupFamily, hk] at h ⊢
      exact h
    · simp [lookupFamily, hk] at h ⊢
      exact ih h

/-- Association lookup passes over a prefix that misses the key. -/
theorem lookupFamily_append_right (xs ys : List (String × AggregationFamily)) (name : String)
    (h : lookupFamily xs name = none) :
    lookupFamily (xs ++ ys) name = lookupFamily ys name := by
  induction xs with
  | nil => rfl
  | cons kv rest ih =>
    by_cases hk : kv.1 = name
    · simp [lookupFamily, hk] at h
    · simp [lookupFamily, hk] at h ⊢
      exact ih h

/-- A name or type mismatch makes AggregationFamily.merge return an error. -/
theorem merge_mismatch_err (self : AggregationFamily) (nf : PrometheusMetricFamily)
    (h : nf.family_name ≠ self.base_family.family_name ∨
      nf.family_type ≠ self.base_family.family_type) :
    ∃ msg, AggregationFamily.merge self nf = RResult.err msg := by
  by_cases hn : nf.family_name = self.base_family.family_name
  · have ht : nf.family_type ≠ self.base_family.family_type := by
      rcases h with h | h
      · exact absurd hn h
      · exact h
    exact ⟨"Invalid metric types", by simp [AggregationFamily.merge, hn, ht]⟩
  · exact ⟨"Invalid metric names - tried to merge " ++ nf.family_name ++ " with " ++
      self.base_family.family_name, by simp [AggregationFamily.merge, hn]⟩

/-! ## Claim theorems -/

/-- C1: the claim says that after either input list of merge_buckets is
exhausted, the remaining items of the other list appear in the output
unchanged, and that the output stays sorted with counts summed per bound.
The code instead drains the remainder of the second list by pushing items of
the first list: on the sorted inputs [1, 2] and [3] (by upper bound) it emits
the first bucket of the first list again instead of the remaining bucket of
the second list, and on the sorted inputs [1] and [2, 3] it indexes the first
list out of range, a panic. -/
theorem C1_merge_buckets_tail_copy_defect :
    merge_buckets
        [⟨1, 1, none⟩, ⟨7, 2, none⟩]
        [⟨5, 3, none⟩] =
      RResult.ok [⟨1, 1, none⟩, ⟨7, 2, none⟩, ⟨1, 1, none⟩] ∧
    merge_buckets
        [⟨1, 1, none⟩]
        [⟨2, 2, none⟩, ⟨3, 3, none⟩] = RResult.indexCrash := by
  exact ⟨by decide, by decide⟩

/-- C2: the claim says every stored sample of an aggregation family has the
clearmode key stripped, in particular a sample inserted as a new entry. The
code inserts the original sample with its clearmode label intact: merging a
batch whose sample has a fresh label set and a clearmode label leaves that
label in the stored state. -/
theorem C2_insert_keeps_clearmode_defect :
    AggregationFamily.merge
        ⟨⟨"m", PrometheusType.Counter, [⟨[("job", "a")], PrometheusValue.Counter 1 none⟩]⟩⟩
        ⟨"m", PrometheusType.Counter,
          [⟨[("job", "b"), ("clearmode", "aggregate")], PrometheusValue.Counter 2 none⟩]⟩ =
      RResult.ok ⟨⟨"m", PrometheusType.Counter,
        [⟨[("job", "a")], PrometheusValue.Counter 1 none⟩,
         ⟨[("job", "b"), ("clearmode", "aggregate")], PrometheusValue.Counter 2 none⟩]⟩⟩ ∧
    get_label_value [("job", "b"), ("clearmode", "aggregate")] CLEARMODE_LABEL_NAME =
      some "aggregate" := by
  exact ⟨by decide, by decide⟩

/-- C4: the clear-mode resolver honours a recognised clearmode label value,
falls back to the type default when the label is absent or unrecognised
(Replace for Gauge, Aggregate for the other four types), never errs, and on a
Gauge family a clearmode value of bogus resolves exactly as an absent
label. -/
theorem C4_clear_mode_resolution (t : PrometheusType) (s : Sample) :
    (get_label_value s.labels CLEARMODE_LABEL_NAME = some "aggregate" →
      ClearMode.from_family t s = ClearMode.Aggregate) ∧
    (get_label_value s.labels CLEARMODE_LABEL_NAME = some "replace" →
      ClearMode.from_family t s = ClearMode.Replace) ∧
    (get_label_value s.labels CLEARMODE_LABEL_NAME = some "family" →
      ClearMode.from_family t s = ClearMode.Family) ∧
    (∀ v, get_label_value s.labels CLEARMODE_LABEL_NAME = some v →
      v ≠ "aggregate" → v ≠ "replace" → v ≠ "family" →
      ClearMode.from_family t s = ClearMode.default_for_type t) ∧
    (get_label_value s.labels CLEARMODE_LABEL_NAME = none →
      ClearMode.from_family t s = ClearMode.default_for_type t) ∧
    ClearMode.default_for_type PrometheusType.Gauge = ClearMode.Replace ∧
    ClearMode.default_for_type PrometheusType.Counter = ClearMode.Aggregate ∧
    ClearMode.default_for_type PrometheusType.Histogram = ClearMode.Aggregate ∧
    ClearMode.default_for_type PrometheusType.Summary = ClearMode.Aggregate ∧
    ClearMode.default_for_type PrometheusType.Unknown = ClearMode.Aggregate ∧
    (get_label_value s.labels CLEARMODE_LABEL_NAME = some "bogus" →
      ClearMode.from_family PrometheusType.Gauge s =
        ClearMode.from_family PrometheusType.Gauge
          (s.without_label CLEARMODE_LABEL_NAME)) := by
  refine ⟨?_, ?_, ?_, ?_, ?_, rfl, rfl, rfl, rfl, rfl, ?_⟩
  · intro h
    simp [ClearMode.from_family, h, ClearMode.from_str]
  · intro h
    simp [ClearMode.from_family, h, ClearMode.from_str]
  · intro h
    simp [ClearMode.from_family, h, ClearMode.from_str]
  · intro v h hv1 hv2 hv3
    simp [ClearMode.from_family, h, ClearMode.from_str, hv1, hv2, hv3]
  · intro h
    simp [ClearMode.from_family, h]
  · intro h
    have hstrip : get_label_value (s.without_label CLEARMODE_LABEL_NAME).labels
        CLEARMODE_LABEL_NAME = none := get_label_value_strip s.labels CLEARMODE_LABEL_NAME
    simp [ClearMode.from_family, h, hstrip, ClearMode.from_str, ClearMode.default_for_type]

/-- Witness for C4 at a concrete sample carrying clearmode bogus on a Gauge
family: the resolver returns the Gauge default Replace. -/
theorem C4_clear_mode_resolution_witness :
    ClearMode.from_family PrometheusType.Gauge
        ⟨[("clearmode", "bogus")], PrometheusValue.Gauge 1⟩ =
      ClearMode.default_for_type PrometheusType.Gauge :=
  (C4_clear_mode_resolution PrometheusType.Gauge
    ⟨[("clearmode", "bogus")], PrometheusValue.Gauge 1⟩).2.2.2.1
    "bogus" (by decide) (by decide) (by decide) (by decide)

/-- C5: merging two Counter samples gives the sum of the values under
Aggregate and the incoming value under Replace, and in both modes the
exemplar of the incoming sample. -/
theorem C5_counter_merge (into mg : Sample) (v1 v2 : Rat) (e1 e2 : Option Exemplar)
    (h1 : into.value = PrometheusValue.Counter v1 e1)
    (h2 : mg.value = PrometheusValue.Counter v2 e2) :
    merge_metric into mg ClearMode.Aggregate =
      RResult.ok { into with value := PrometheusValue.Counter (v1 + v2) e2 } ∧
    merge_metric into mg ClearMode.Replace =
      RResult.ok { into with value := PrometheusValue.Counter v2 e2 } := by
  constructor <;> simp [merge_metric, h1, h2]

/-- Witness for C5 at concrete Counter samples. -/
theorem C5_counter_merge_witness :
    merge_metric ⟨[("x", "1")], PrometheusValue.Counter 3 none⟩
        ⟨[("x", "1"), ("clearmode", "aggregate")],
          PrometheusValue.Counter 4 (some ⟨[], 9⟩)⟩ ClearMode.Aggregate =
      RResult.ok ⟨[("x", "1")], PrometheusValue.Counter (3 + 4) (some ⟨[], 9⟩)⟩ :=
  (C5_counter_merge
    ⟨[("x", "1")], PrometheusValue.Counter 3 none⟩
    ⟨[("x", "1"), ("clearmode", "aggregate")], PrometheusValue.Counter 4 (some ⟨[], 9⟩)⟩
    3 4 none (some ⟨[], 9⟩) rfl rfl).1

/-- C7: the claim says merging two Summary values fails with a reported
error. The code instead hits a todo panic, an unguarded crash, under either
reachable clear mode. -/
theorem C7_summary_merge_todo_crash :
    merge_metric ⟨[], PrometheusValue.Summary⟩ ⟨[], PrometheusValue.Summary⟩
        ClearMode.Aggregate = RResult.todoCrash ∧
    merge_metric ⟨[], PrometheusValue.Summary⟩ ⟨[], PrometheusValue.Summary⟩
        ClearMode.Replace = RResult.todoCrash :=
  ⟨rfl, rfl⟩

/-- C8: the claim says merging two values with different type tags reports an
internal error. The code instead hits an unreachable panic, an abort, for a
Gauge existing value and a Counter incoming value. -/
theorem C8_type_mismatch_unreachable_crash :
    merge_metric ⟨[], PrometheusValue.Gauge 1⟩ ⟨[], PrometheusValue.Counter 2 none⟩
        ClearMode.Aggregate = RResult.unreachableCrash ∧
    merge_metric ⟨[], PrometheusValue.Gauge 1⟩ ⟨[], PrometheusValue.Counter 2 none⟩
        ClearMode.Replace = RResult.unreachableCrash :=
  ⟨rfl, rfl⟩

/-- C3: when any incoming sample resolves to Family clear mode, the merge
replaces the stored family wholesale with the incoming batch, every adopted
sample stripped of the clearmode label; no per-sample merging happens and
every previously stored sample is discarded. -/
theorem C3_family_clear_adopts_stripped_batch
    (self : AggregationFamily) (nf : PrometheusMetricFamily)
    (hname : nf.family_name = self.base_family.family_name)
    (htype : nf.family_type = self.base_family.family_type)
    (hclear : shouldClearFamily nf = true) :
    AggregationFamily.merge self nf =
      RResult.ok ⟨⟨nf.family_name, nf.family_type,
        nf.samples.map (fun s =>
          Sample.mk (withoutLabelPairs s.labels CLEARMODE_LABEL_NAME) s.value)⟩⟩ ∧
    ∀ s ∈ (nf.without_label CLEARMODE_LABEL_NAME).samples,
      get_label_value s.labels CLEARMODE_LABEL_NAME = none := by
  constructor
  · simp [AggregationFamily.merge, hname, htype, hclear,
      PrometheusMetricFamily.without_label, Sample.without_label]
  · intro s hs
    simp [PrometheusMetricFamily.without_label] at hs
    obtain ⟨t, ht, rfl⟩ := hs
    exact get_label_value_strip t.labels CLEARMODE_LABEL_NAME

/-- Witness for C3: one incoming sample requests a family clear, the other
does not; the stored sample is discarded and both incoming samples are
adopted with the clearmode label removed. -/
theorem C3_family_clear_adopts_stripped_batch_witness :
    AggregationFamily.merge
        ⟨⟨"g", PrometheusType.Gauge, [⟨[("a", "1")], PrometheusValue.Gauge 5⟩]⟩⟩
        ⟨"g", PrometheusType.Gauge,
          [⟨[("a", "2"), ("clearmode", "family")], PrometheusValue.Gauge 7⟩,
           ⟨[("a", "3")], PrometheusValue.Gauge 8⟩]⟩ =
      RResult.ok ⟨⟨"g", PrometheusType.Gauge,
        [⟨[("a", "2")], PrometheusValue.Gauge 7⟩,
         ⟨[("a", "3")], PrometheusValue.Gauge 8⟩]⟩⟩ :=
  (C3_family_clear_adopts_stripped_batch
    ⟨⟨"g", PrometheusType.Gauge, [⟨[("a", "1")], PrometheusValue.Gauge 5⟩]⟩⟩
    ⟨"g", PrometheusType.Gauge,
      [⟨[("a", "2"), ("clearmode", "family")], PrometheusValue.Gauge 7⟩,
       ⟨[("a", "3")], PrometheusValue.Gauge 8⟩]⟩
    rfl rfl (by decide)).1

/-- C6: merging two Histogram samples under Aggregate or Replace gives a
histogram whose sum (and count) is present exactly when both inputs carry it
and then equals their sum under Aggregate and the incoming value under
Replace, whose created timestamp is the incoming one unconditionally, and
whose buckets under Replace are the incoming buckets verbatim. -/
theorem C6_histogram_merge (into mg : Sample) (s1 s2 : Option Rat) (c1 c2 : Option Nat)
    (cr1 cr2 : Option Rat) (b1 b2 : List HistogramBucket)
    (h1 : into.value = PrometheusValue.Histogram s1 c1 cr1 b1)
    (h2 : mg.value = PrometheusValue.Histogram s2 c2 cr2 b2) :
    ∀ cm r, (cm = ClearMode.Aggregate ∨ cm = ClearMode.Replace) →
      merge_metric into mg cm = RResult.ok r →
      ∃ s c b, r.value = PrometheusValue.Histogram s c cr2 b ∧
        s.isSome = (s1.isSome && s2.isSome) ∧
        c.isSome = (c1.isSome && c2.isSome) ∧
        (∀ a x, s1 = some a → s2 = some x →
          s = some (if cm = ClearMode.Aggregate then a + x else x)) ∧
        (∀ a x, c1 = some a → c2 = some x →
          c = some (if cm = ClearMode.Aggregate then a + x else x)) ∧
        (cm = ClearMode.Replace → b = b2) := by
  intro cm r hcm hr
  rcases hcm with rfl | rfl
  · simp only [merge_metric, h1, h2] at hr
    cases hmb : merge_buckets b1 b2 with
    | ok bs =>
      rw [hmb] at hr
      injection hr with hr2
      subst hr2
      refine ⟨_, _, bs, rfl, ?_, ?_, ?_, ?_, ?_⟩
      · cases s1 <;> cases s2 <;> simp
      · cases c1 <;> cases c2 <;> simp
      · intro a x ha hx
        subst ha
        subst hx
        simp
      · intro a x ha hx
        subst ha
        subst hx
        simp
      · intro hfalse
        cases hfalse
    | err e => rw [hmb] at hr; cases hr
    | todoCrash => rw [hmb] at hr; cases hr
    | unreachableCrash => rw [hmb] at hr; cases hr
    | indexCrash => rw [hmb] at hr; cases hr
  · simp only [merge_metric, h1, h2] at hr
    injection hr with hr2
    subst hr2
    refine ⟨_, _, b2, rfl, ?_, ?_, ?_, ?_, fun _ => rfl⟩
    · cases s1 <;> cases s2 <;> simp
    · cases c1 <;> cases c2 <;> simp
    · intro a x ha hx
      subst ha
      subst hx
      simp
    · intro a x ha hx
      subst ha
      subst hx
      simp

/-- Witness for C6 at concrete Histogram samples under Replace: the incoming
sum is kept, the count is dropped because the incoming sample lacks it, the
created timestamp and the buckets come from the incoming sample. -/
theorem C6_histogram_merge_witness :
    ∃ s c b,
      (Sample.mk ([] : List (String × String))
          (PrometheusValue.Histogram (some 3) none (some 9) [])).value =
        PrometheusValue.Histogram s c (some 9) b ∧
      s.isSome = ((some (1 : Rat)).isSome && (some (3 : Rat)).isSome) ∧
      c.isSome = ((some (2 : Nat)).isSome && (none : Option Nat).isSome) ∧
      (∀ a x, (some (1 : Rat)) = some a → (some (3 : Rat)) = some x →
        s = some (if ClearMode.Replace = ClearMode.Aggregate then a + x else x)) ∧
      (∀ a x, (some (2 : Nat)) = some a → (none : Option Nat) = some x →
        c = some (if ClearMode.Replace = ClearMode.Aggregate then a + x else x)) ∧
      (ClearMode.Replace = ClearMode.Replace →
        b = ([] : List HistogramBucket)) :=
  C6_histogram_merge
    ⟨[], PrometheusValue.Histogram (some 1) (some 2) (some 5) []⟩
    ⟨[], PrometheusValue.Histogram (some 3) none (some 9) []⟩
    (some 1) (some 3) (some 2) none (some 5) (some 9) [] [] rfl rfl
    ClearMode.Replace
    ⟨[], PrometheusValue.Histogram (some 3) none (some 9) []⟩
    (Or.inr rfl) rfl

/-- C9: merging an incoming family whose name or type differs from the
stored family of the same key is a reported error that leaves the stored
family unchanged, and a batch whose second family fails this validation
keeps the state merged for its first family intact. -/
theorem C9_schema_mismatch_isolated
    (state : List (String × AggregationFamily)) (n1 n2 : String)
    (f1 f2 : PrometheusMetricFamily) (g : AggregationFamily)
    (h1 : lookupFamily state n1 = none)
    (h2 : lookupFamily state n2 = some g)
    (hmis : f2.family_name ≠ g.base_family.family_name ∨
      f2.family_type ≠ g.base_family.family_type) :
    (∃ msg, (parse_and_merge_families [(n1, f1), (n2, f2)] state).1 = RResult.err msg) ∧
    lookupFamily (parse_and_merge_families [(n1, f1), (n2, f2)] state).2 n2 = some g ∧
    lookupFamily (parse_and_merge_families [(n1, f1), (n2, f2)] state).2 n1 =
      some (AggregationFamily.new f1) := by
  obtain ⟨msg, hmsg⟩ := merge_mismatch_err g f2 hmis
  have hL2 : lookupFamily (state ++ [(n1, AggregationFamily.new f1)]) n2 = some g :=
    lookupFamily_append_left state _ n2 g h2
  have heval : parse_and_merge_families [(n1, f1), (n2, f2)] state =
      (RResult.err msg, state ++ [(n1, AggregationFamily.new f1)]) := by
    simp [parse_and_merge_families, h1, hL2, hmsg]
  rw [heval]
  refine ⟨⟨msg, rfl⟩, hL2, ?_⟩
  rw [lookupFamily_append_right state _ n1 h1]
  simp [lookupFamily]

/-- Witness for C9: the first family of the batch is new and is inserted;
the second collides with a stored Gauge family under a Counter type, the
batch reports an error, the stored family is untouched and the first
insertion survives. -/
theorem C9_schema_mismatch_isolated_witness :
    (∃ msg, (parse_and_merge_families
        [("a", ⟨"a", PrometheusType.Counter, []⟩), ("b", ⟨"b", PrometheusType.Counter, []⟩)]
        [("b", ⟨⟨"b", PrometheusType.Gauge, []⟩⟩)]).1 = RResult.err msg) ∧
    lookupFamily (parse_and_merge_families
        [("a", ⟨"a", PrometheusType.Counter, []⟩), ("b", ⟨"b", PrometheusType.Counter, []⟩)]
        [("b", ⟨⟨"b", PrometheusType.Gauge, []⟩⟩)]).2 "b" =
      some ⟨⟨"b", PrometheusType.Gauge, []⟩⟩ ∧
    lookupFamily (parse_and_merge_families
        [("a", ⟨"a", PrometheusType.Counter, []⟩), ("b", ⟨"b", PrometheusType.Counter, []⟩)]
        [("b", ⟨⟨"b", PrometheusType.Gauge, []⟩⟩)]).2 "a" =
      some (AggregationFamily.new ⟨"a", PrometheusType.Counter, []⟩) :=
  C9_schema_mismatch_isolated
    [("b", ⟨⟨"b", PrometheusType.Gauge, []⟩⟩)] "a" "b"
    ⟨"a", PrometheusType.Counter, []⟩ ⟨"b", PrometheusType.Counter, []⟩
    ⟨⟨"b", PrometheusType.Gauge, []⟩⟩
    (by decide) (by decide) (Or.inr (by decide))

/-- C10: when the family-wide clear check is false, every per-sample clear
mode the merge loop resolves (against the stored family type, which the
validation has made equal to the incoming one) is Aggregate or Replace,
never Family, so merge_metric is never invoked with Family. -/
theorem C10_family_mode_unreachable_in_loop
    (self : AggregationFamily) (nf : PrometheusMetricFamily)
    (htype : nf.family_type = self.base_family.family_type)
    (hclear : shouldClearFamily nf = false) :
    ∀ metric ∈ nf.samples,
      ClearMode.from_family self.base_family.family_type metric = ClearMode.Aggregate ∨
      ClearMode.from_family self.base_family.family_type metric = ClearMode.Replace := by
  intro m hm
  rw [← htype]
  have h : ∀ x ∈ nf.samples,
      ¬(ClearMode.from_family nf.family_type x == ClearMode.Family) = true := by
    simpa [shouldClearFamily, List.any_eq_false] using hclear
  have hne : ClearMode.from_family nf.family_type m ≠ ClearMode.Family := by
    intro hEq
    have hx := h m hm
    rw [hEq] at hx
    rw [(by decide : (ClearMode.Family == ClearMode.Family) = true)] at hx
    exact hx rfl
  cases hcm : ClearMode.from_family nf.family_type m with
  | Aggregate => exact Or.inl rfl
  | Replace => exact Or.inr rfl
  | Family => exact absurd hcm hne

/-- Witness for C10: in a batch whose clear check is false, the explicit
replace sample of a Gauge family resolves to Aggregate or Replace. -/
theorem C10_family_mode_unreachable_in_loop_witness :
    ClearMode.from_family
      (AggregationFamily.base_family ⟨⟨"g", PrometheusType.Gauge, []⟩⟩).family_type
      (Sample.mk [("clearmode", "replace")] (PrometheusValue.Gauge 1)) =
        ClearMode.Aggregate ∨
    ClearMode.from_family
      (AggregationFamily.base_family ⟨⟨"g", PrometheusType.Gauge, []⟩⟩).family_type
      (Sample.mk [("clearmode", "replace")] (PrometheusValue.Gauge 1)) =
        ClearMode.Replace :=
  C10_family_mode_unreachable_in_loop
    ⟨⟨"g", PrometheusType.Gauge, []⟩⟩
    ⟨"g", PrometheusType.Gauge,
      [⟨[("clearmode", "replace")], PrometheusValue.Gauge 1⟩,
       ⟨[], PrometheusValue.Gauge 2⟩]⟩
    rfl (by decide)
    ⟨[("clearmode", "replace")], PrometheusValue.Gauge 1⟩
    (List.Mem.head _)
